import Mathlib

/-!
Verification of the Hono URL-shortening service (src/index.ts).

The service keeps a single MongoDB collection of `UrlMapping` documents and
exposes five route handlers: create (POST), redirect-and-count (GET),
update (PUT), delete (DELETE) and stats (GET .../stats).

The collection is embedded as a `List UrlMapping` in insertion order.
MongoDB's `findOne`, `updateOne` and `deleteOne` with a `{ shortCode }`
filter act on the first matching document in natural order, which for this
program (inserts only, no sort) is insertion order; they are embedded as
first-match operations on the list.  `insertOne` appends.  Request bodies
are `Option String` for the `url` field: `none` models a missing field and
JavaScript's falsy test `!url` also rejects the empty string.
-/

/-- A stored document, after `interface UrlMapping` (the optional `_id`
assigned by the driver plays no role in any handler and is omitted).
`clicks` is an `Int` so that non-negativity is a real invariant, and
`createdAt` is an abstract timestamp. -/
structure UrlMapping where
  shortCode : String
  url : String
  clicks : Int
  createdAt : Nat
deriving Repr, DecidableEq

/-- The 62-character alphabet of `generateShortCode`. -/
def chars : String :=
  "abcdefghijklmnopqrstuvwxyzABCDEFGHIJKLMNOPQRSTUVWXYZ0123456789"

/-- JavaScript `s.charAt(i)`: the one-character string at index `i`, or the
empty string when `i` is out of range. -/
def charAt (s : String) (i : Nat) : String :=
  if h : i < s.toList.length then String.singleton (s.toList.get ⟨i, h⟩) else ""

/-- `generateShortCode(length)`: starting from `""`, append
`chars.charAt(Math.floor(Math.random() * chars.length))` `length` times.
`randIdx i` stands for the value `Math.floor(Math.random() * 62)` drawn at
iteration `i`; since `Math.random() < 1` it is below 62. -/
def generateShortCode (randIdx : Nat → Nat) (length : Nat) : String :=
  (List.range length).foldl (fun result i => result ++ charAt chars (randIdx i)) ""

/-- `urlCollection.findOne({ shortCode })`: the first document whose
`shortCode` equals the filter. -/
def findOne (store : List UrlMapping) (code : String) : Option UrlMapping :=
  store.find? (fun m => m.shortCode == code)

/-- `urlCollection.updateOne({ shortCode }, ...)`: apply `f` to the first
matching document; the second component is `matchedCount` (0 or 1). -/
def updateFirst (code : String) (f : UrlMapping → UrlMapping) :
    List UrlMapping → List UrlMapping × Nat
  | [] => ([], 0)
  | m :: rest =>
    if m.shortCode == code then (f m :: rest, 1)
    else
      let r := updateFirst code f rest
      (m :: r.1, r.2)

/-- `urlCollection.deleteOne({ shortCode })`: remove the first matching
document; the second component is `deletedCount` (0 or 1). -/
def deleteFirst (code : String) : List UrlMapping → List UrlMapping × Nat
  | [] => ([], 0)
  | m :: rest =>
    if m.shortCode == code then (rest, 1)
    else
      let r := deleteFirst code rest
      (m :: r.1, r.2)

/-- The HTTP responses the five handlers can produce.  `redirect` carries
Hono's default redirect status 302; `c.json(..)` carries status 200 unless
given one. -/
inductive Response where
  | text (status : Nat) (body : String)
  | redirect (status : Nat) (location : String)
  | jsonError (status : Nat) (error : String)
  | jsonMessage (status : Nat) (message : String)
  | jsonShorten (status : Nat) (shortCode : String) (url : String)
  | jsonStats (status : Nat) (shortCode : String) (url : String)
      (clicks : Int) (createdAt : Nat)
deriving Repr, DecidableEq

/-- The HTTP status of a response. -/
def Response.status : Response → Nat
  | .text s _ => s
  | .redirect s _ => s
  | .jsonError s _ => s
  | .jsonMessage s _ => s
  | .jsonShorten s _ _ => s
  | .jsonStats s _ _ _ _ => s

/-- The validation-error body shared by POST and PUT. -/
def errUrlRequired : String := "El campo \"url\" es obligatorio."

/-- `POST /api/v1/shorten`: reject a missing or empty `url` with 400,
otherwise insert `{ shortCode, url, clicks: 0, createdAt: now }` and echo
the code and URL.  `code` is the freshly generated short code and `now`
the current timestamp. -/
def createHandler (store : List UrlMapping) (body : Option String)
    (code : String) (now : Nat) : Response × List UrlMapping :=
  match body with
  | none => (Response.jsonError 400 errUrlRequired, store)
  | some url =>
    if url == "" then (Response.jsonError 400 errUrlRequired, store)
    else (Response.jsonShorten 200 code url, store ++ [⟨code, url, 0, now⟩])

/-- `GET /api/v1/shorten/:shortCode`: 404 plain text when no document
matches, otherwise `$inc` the clicks of the matching document and redirect
to the URL read by the lookup. -/
def redirectHandler (store : List UrlMapping) (code : String) :
    Response × List UrlMapping :=
  match findOne store code with
  | none => (Response.text 404 "Código corto no encontrado", store)
  | some mapping =>
    let r := updateFirst code (fun m => { m with clicks := m.clicks + 1 }) store
    (Response.redirect 302 mapping.url, r.1)

/-- `PUT /api/v1/shorten/:shortCode`: reject a missing or empty `url` with
400 before touching the store; otherwise `$set` the URL of the first
matching document and report 404 when `matchedCount` is 0. -/
def updateHandler (store : List UrlMapping) (code : String)
    (body : Option String) : Response × List UrlMapping :=
  match body with
  | none => (Response.jsonError 400 errUrlRequired, store)
  | some url =>
    if url == "" then (Response.jsonError 400 errUrlRequired, store)
    else
      let r := updateFirst code (fun m => { m with url := url }) store
      if r.2 == 0 then (Response.jsonError 404 "Código corto no encontrado.", r.1)
      else (Response.jsonMessage 200 "URL actualizada correctamente.", r.1)

/-- `DELETE /api/v1/shorten/:shortCode`: delete the first matching
document and report 404 when `deletedCount` is 0. -/
def deleteHandler (store : List UrlMapping) (code : String) :
    Response × List UrlMapping :=
  let r := deleteFirst code store
  if r.2 == 0 then (Response.jsonError 404 "Código corto no encontrado.", r.1)
  else (Response.jsonMessage 200 "URL eliminada correctamente.", r.1)

/-- `GET /api/v1/shorten/:shortCode/stats`: 404 when no document matches,
otherwise return the matching document's four fields verbatim. -/
def statsHandler (store : List UrlMapping) (code : String) :
    Response × List UrlMapping :=
  match findOne store code with
  | none => (Response.jsonError 404 "Código corto no encontrado.", store)
  | some m => (Response.jsonStats 200 m.shortCode m.url m.clicks m.createdAt, store)

/-- The number of stored documents matching a short code. -/
def countMatch (store : List UrlMapping) (code : String) : Nat :=
  (store.filter (fun m => m.shortCode == code)).length

/-- A store with a single mapping, used to instantiate the theorems. -/
def demoStore : List UrlMapping :=
  [⟨"abc123", "https://example.com", 0, 5⟩]

/-- A store holding two documents with the same short code — legal, since
the source never enforces uniqueness of `shortCode`. -/
def dupStore : List UrlMapping :=
  [⟨"abc123", "https://a.example", 0, 1⟩, ⟨"abc123", "https://b.example", 7, 2⟩]

/-- The store states reachable from the empty collection by the five
handlers. -/
inductive Reachable : List UrlMapping → Prop where
  | init : Reachable []
  | create (s : List UrlMapping) (body : Option String) (code : String) (now : Nat) :
      Reachable s → Reachable (createHandler s body code now).2
  | redirect (s : List UrlMapping) (code : String) :
      Reachable s → Reachable (redirectHandler s code).2
  | update (s : List UrlMapping) (code : String) (body : Option String) :
      Reachable s → Reachable (updateHandler s code body).2
  | del (s : List UrlMapping) (code : String) :
      Reachable s → Reachable (deleteHandler s code).2
  | stats (s : List UrlMapping) (code : String) :
      Reachable s → Reachable (statsHandler s code).2

/-! ### Helper lemmas about the embedded collection operations -/

theorem findOne_cons (m : UrlMapping) (rest : List UrlMapping) (code : String) :
    findOne (m :: rest) code =
      if m.shortCode == code then some m else findOne rest code := by
  by_cases h : (m.shortCode == code) = true
  · simp [findOne, List.find?_cons_of_pos _ h, h]
  · simp [findOne, List.find?_cons_of_neg _ h, h]

theorem updateFirst_of_find_none (store : List UrlMapping) (code : String)
    (f : UrlMapping → UrlMapping) (h : findOne store code = none) :
    updateFirst code f store = (store, 0) := by
  induction store with
  | nil => rfl
  | cons m rest ih =>
    rw [findOne_cons] at h
    by_cases hm : (m.shortCode == code) = true
    · simp [hm] at h
    · rw [if_neg hm] at h
      simp [updateFirst, hm, ih h]

theorem deleteFirst_of_find_none (store : List UrlMapping) (code : String)
    (h : findOne store code = none) :
    deleteFirst code store = (store, 0) := by
  induction store with
  | nil => rfl
  | cons m rest ih =>
    rw [findOne_cons] at h
    by_cases hm : (m.shortCode == code) = true
    · simp [hm] at h
    · rw [if_neg hm] at h
      simp [deleteFirst, hm, ih h]

theorem findOne_eq_some_decomp (store : List UrlMapping) (code : String)
    (m : UrlMapping) (h : findOne store code = some m) :
    ∃ l₁ l₂, store = l₁ ++ m :: l₂ ∧
      (∀ x ∈ l₁, (x.shortCode == code) = false) ∧
      (m.shortCode == code) = true := by
  induction store with
  | nil => simp [findOne] at h
  | cons a rest ih =>
    rw [findOne_cons] at h
    by_cases ha : (a.shortCode == code) = true
    · rw [if_pos ha] at h
      refine ⟨[], rest, ?_, by simp, ?_⟩
      · simp [Option.some.injEq] at h
        rw [h, List.nil_append]
      · simp [Option.some.injEq] at h
        rw [← h]; exact ha
    · rw [if_neg ha] at h
      obtain ⟨l₁, l₂, hs, hnone, hm⟩ := ih h
      exact ⟨a :: l₁, l₂, by rw [hs, List.cons_append], by
        intro x hx
        rcases List.mem_cons.mp hx with hxa | hxl
        · rw [hxa]; exact Bool.eq_false_iff.mpr ha
        · exact hnone x hxl, hm⟩

theorem findOne_append_of_no_match (l₁ l₂ : List UrlMapping) (m : UrlMapping)
    (code : String) (h₁ : ∀ x ∈ l₁, (x.shortCode == code) = false)
    (hm : (m.shortCode == code) = true) :
    findOne (l₁ ++ m :: l₂) code = some m := by
  induction l₁ with
  | nil => simp [findOne_cons, hm]
  | cons a rest ih =>
    have ha := h₁ a (List.mem_cons_self a rest)
    rw [List.cons_append, findOne_cons, if_neg (by simp [ha])]
    exact ih (fun x hx => h₁ x (List.mem_cons_of_mem a hx))

theorem updateFirst_append (l₁ l₂ : List UrlMapping) (m : UrlMapping)
    (code : String) (f : UrlMapping → UrlMapping)
    (h₁ : ∀ x ∈ l₁, (x.shortCode == code) = false)
    (hm : (m.shortCode == code) = true) :
    updateFirst code f (l₁ ++ m :: l₂) = (l₁ ++ f m :: l₂, 1) := by
  induction l₁ with
  | nil => simp [updateFirst, hm]
  | cons a rest ih =>
    have ha := h₁ a (List.mem_cons_self a rest)
    have := ih (fun x hx => h₁ x (List.mem_cons_of_mem a hx))
    simp [updateFirst, ha, this]

theorem deleteFirst_append (l₁ l₂ : List UrlMapping) (m : UrlMapping)
    (code : String)
    (h₁ : ∀ x ∈ l₁, (x.shortCode == code) = false)
    (hm : (m.shortCode == code) = true) :
    deleteFirst code (l₁ ++ m :: l₂) = (l₁ ++ l₂, 1) := by
  induction l₁ with
  | nil => simp [deleteFirst, hm]
  | cons a rest ih =>
    have ha := h₁ a (List.mem_cons_self a rest)
    have := ih (fun x hx => h₁ x (List.mem_cons_of_mem a hx))
    simp [deleteFirst, ha, this]

theorem countMatch_append (l₁ l₂ : List UrlMapping) (code : String) :
    countMatch (l₁ ++ l₂) code = countMatch l₁ code + countMatch l₂ code := by
  simp [countMatch, List.filter_append]

theorem countMatch_eq_zero_of_no_match (l : List UrlMapping) (code : String)
    (h : ∀ x ∈ l, (x.shortCode == code) = false) :
    countMatch l code = 0 := by
  simp only [countMatch, List.length_eq_zero, List.filter_eq_nil_iff]
  intro x hx
  simp [h x hx]

theorem countMatch_cons_match (m : UrlMapping) (l : List UrlMapping)
    (code : String) (hm : (m.shortCode == code) = true) :
    countMatch (m :: l) code = countMatch l code + 1 := by
  simp [countMatch, List.filter_cons, hm, Nat.add_comm]

theorem countMatch_eq_zero_iff (store : List UrlMapping) (code : String) :
    countMatch store code = 0 ↔ findOne store code = none := by
  constructor
  · intro h
    simp only [countMatch, List.length_eq_zero, List.filter_eq_nil_iff] at h
    simp only [findOne, List.find?_eq_none]
    intro x hx
    simp [h x hx]
  · intro h
    apply countMatch_eq_zero_of_no_match
    simp only [findOne, List.find?_eq_none] at h
    intro x hx
    simp [h x hx]

theorem mem_updateFirst (code : String) (f : UrlMapping → UrlMapping)
    (store : List UrlMapping) (x : UrlMapping)
    (hx : x ∈ (updateFirst code f store).1) :
    x ∈ store ∨ ∃ y ∈ store, x = f y := by
  induction store with
  | nil => simp [updateFirst] at hx
  | cons m rest ih =>
    by_cases hm : (m.shortCode == code) = true
    · simp only [updateFirst, if_pos hm] at hx
      rcases List.mem_cons.mp hx with h | h
      · exact Or.inr ⟨m, List.mem_cons_self m rest, h⟩
      · exact Or.inl (List.mem_cons_of_mem m h)
    · simp only [updateFirst, if_neg hm] at hx
      rcases List.mem_cons.mp hx with h | h
      · exact Or.inl (h ▸ List.mem_cons_self m rest)
      · rcases ih h with h | ⟨y, hy, hxy⟩
        · exact Or.inl (List.mem_cons_of_mem m h)
        · exact Or.inr ⟨y, List.mem_cons_of_mem m hy, hxy⟩

theorem mem_deleteFirst (code : String) (store : List UrlMapping)
    (x : UrlMapping) (hx : x ∈ (deleteFirst code store).1) : x ∈ store := by
  induction store with
  | nil => simp [deleteFirst] at hx
  | cons m rest ih =>
    by_cases hm : (m.shortCode == code) = true
    · simp only [deleteFirst, if_pos hm] at hx
      exact List.mem_cons_of_mem m hx
    · simp only [deleteFirst, if_neg hm] at hx
      rcases List.mem_cons.mp hx with h | h
      · exact h ▸ List.mem_cons_self m rest
      · exact List.mem_cons_of_mem m (ih h)

theorem generateShortCode_succ (randIdx : Nat → Nat) (k : Nat) :
    generateShortCode randIdx (k + 1) =
      generateShortCode randIdx k ++ charAt chars (randIdx k) := by
  simp [generateShortCode, List.range_succ]

theorem charAt_chars_length (i : Nat) (h : i < 62) :
    (charAt chars i).length = 1 := by
  have hlt : i < chars.toList.length := by
    have : chars.toList.length = 62 := rfl
    rw [this]; exact h
  rw [charAt, dif_pos hlt]
  rfl

theorem charAt_chars_mem (i : Nat) (h : i < 62) (c : Char)
    (hc : c ∈ (charAt chars i).toList) : c ∈ chars.toList := by
  have hlt : i < chars.toList.length := by
    have : chars.toList.length = 62 := rfl
    rw [this]; exact h
  rw [charAt, dif_pos hlt] at hc
  have : (String.singleton (chars.toList.get ⟨i, hlt⟩)).toList
      = [chars.toList.get ⟨i, hlt⟩] := rfl
  rw [this] at hc
  rcases List.mem_singleton.mp hc with h
  rw [h]
  exact chars.toList.get_mem _ _

theorem generateShortCode_spec (randIdx : Nat → Nat) (n : Nat)
    (h : ∀ i, i < n → randIdx i < 62) :
    (generateShortCode randIdx n).length = n ∧
      ∀ c ∈ (generateShortCode randIdx n).toList, c ∈ chars.toList := by
  induction n with
  | zero => exact ⟨rfl, by intro c hc; simp [generateShortCode] at hc⟩
  | succ k ih =>
    obtain ⟨hlen, hmem⟩ := ih (fun i hi => h i (Nat.lt_succ_of_lt hi))
    rw [generateShortCode_succ]
    constructor
    · rw [String.length_append, hlen,
        charAt_chars_length (randIdx k) (h k (Nat.lt_succ_self k))]
    · intro c hc
      have hsplit : (generateShortCode randIdx k ++ charAt chars (randIdx k)).toList
          = (generateShortCode randIdx k).toList ++ (charAt chars (randIdx k)).toList := rfl
      rw [hsplit] at hc
      rcases List.mem_append.mp hc with hca | hcb
      · exact hmem c hca
      · exact charAt_chars_mem (randIdx k) (h k (Nat.lt_succ_self k)) c hcb

theorem redirectHandler_some (store : List UrlMapping) (code : String)
    (m : UrlMapping) (h : findOne store code = some m) :
    (redirectHandler store code).1 = Response.redirect 302 m.url ∧
    findOne (redirectHandler store code).2 code
      = some { m with clicks := m.clicks + 1 } := by
  obtain ⟨l₁, l₂, hs, hno, hm⟩ := findOne_eq_some_decomp store code m h
  have hupd := updateFirst_append l₁ l₂ m code
    (fun x => { x with clicks := x.clicks + 1 }) hno hm
  refine ⟨by simp [redirectHandler, h], ?_⟩
  have hsnd : (redirectHandler store code).2
      = l₁ ++ { m with clicks := m.clicks + 1 } :: l₂ := by
    simp only [redirectHandler, h]
    rw [hs, hupd]
  rw [hsnd]
  exact findOne_append_of_no_match l₁ l₂ _ code hno hm

/-- C1: a GET redirect on an unknown short code yields a 404 plain-text
response and leaves the store unchanged; on a known code it redirects (302)
to the stored URL of the matching document and increments that document's
clicks by exactly 1, so two successive redirects take clicks from 0 to 2. -/
theorem C1_redirect_behavior (store : List UrlMapping) (code : String) :
    (findOne store code = none →
      (redirectHandler store code).1 = Response.text 404 "Código corto no encontrado" ∧
      (redirectHandler store code).2 = store) ∧
    (∀ m, findOne store code = some m →
      (redirectHandler store code).1 = Response.redirect 302 m.url ∧
      findOne (redirectHandler store code).2 code
        = some { m with clicks := m.clicks + 1 } ∧
      (m.clicks = 0 →
        findOne (redirectHandler (redirectHandler store code).2 code).2 code
          = some { m with clicks := 2 })) := by
  constructor
  · intro h
    exact ⟨by simp [redirectHandler, h], by simp [redirectHandler, h]⟩
  · intro m h
    obtain ⟨hresp, hfind⟩ := redirectHandler_some store code m h
    refine ⟨hresp, hfind, ?_⟩
    intro h0
    obtain ⟨_, hfind₂⟩ :=
      redirectHandler_some (redirectHandler store code).2 code _ hfind
    rw [hfind₂]
    simp [h0]

/-- Witness for C1 on the one-document demo store. -/
theorem C1_witness :
    (redirectHandler demoStore "abc123").1 = Response.redirect 302 "https://example.com" ∧
    findOne (redirectHandler (redirectHandler demoStore "abc123").2 "abc123").2 "abc123"
      = some ⟨"abc123", "https://example.com", 2, 5⟩ := by
  have h := (C1_redirect_behavior demoStore "abc123").2
    ⟨"abc123", "https://example.com", 0, 5⟩ (by decide)
  exact ⟨h.1, h.2.2 rfl⟩

/-- C2: POST with a non-empty url appends exactly one new document with
that url, clicks 0 and the generated short code, echoes the code and url,
and the generated code has length 6 with every character drawn from the
62-character alphanumeric alphabet. -/
theorem C2_create_persists (store : List UrlMapping) (randIdx : Nat → Nat)
    (url : String) (now : Nat) (hurl : url ≠ "")
    (hrand : ∀ i, i < 6 → randIdx i < 62) :
    (createHandler store (some url) (generateShortCode randIdx 6) now).1
      = Response.jsonShorten 200 (generateShortCode randIdx 6) url ∧
    (createHandler store (some url) (generateShortCode randIdx 6) now).2
      = store ++ [⟨generateShortCode randIdx 6, url, 0, now⟩] ∧
    (generateShortCode randIdx 6).length = 6 ∧
    ∀ c ∈ (generateShortCode randIdx 6).toList, c ∈ chars.toList := by
  have hne : (url == "") = false := by simp [hurl]
  obtain ⟨hlen, hmem⟩ := generateShortCode_spec randIdx 6 hrand
  exact ⟨by simp [createHandler, hne], by simp [createHandler, hne], hlen, hmem⟩

/-- Witness for C2 with the index stream 0,1,2,3,4,5, which generates the
code "abcdef". -/
theorem C2_witness :
    (createHandler [] (some "https://example.com") (generateShortCode (fun i => i) 6) 0).2
      = [⟨"abcdef", "https://example.com", 0, 0⟩] ∧
    (generateShortCode (fun i => i) 6).length = 6 := by
  have h := C2_create_persists [] (fun i => i) "https://example.com" 0
    (by decide) (fun i hi => by show i < 62; omega)
  refine ⟨?_, h.2.2.1⟩
  rw [h.2.1]
  decide

/-- C3 counterexample: on a store holding two documents with the same short
code (which the source permits), DELETE returns 200 but the subsequent
stats lookup still finds the second document and returns 200, not 404. -/
theorem C3_counterexample :
    1 ≤ countMatch dupStore "abc123" ∧
    (deleteHandler dupStore "abc123").1.status = 200 ∧
    (statsHandler (deleteHandler dupStore "abc123").2 "abc123").1.status ≠ 404 := by
  decide

/-- C3 (amended): for every store state and every short code with exactly
one matching record, a DELETE request on that code returns 200 and a
subsequent GET stats request on the same code returns 404. -/
theorem C3_delete_then_stats (store : List UrlMapping) (code : String)
    (h : countMatch store code = 1) :
    (deleteHandler store code).1
      = Response.jsonMessage 200 "URL eliminada correctamente." ∧
    (statsHandler (deleteHandler store code).2 code).1
      = Response.jsonError 404 "Código corto no encontrado." := by
  rcases hfo : findOne store code with _ | m
  · have := (countMatch_eq_zero_iff store code).mpr hfo
    omega
  · obtain ⟨l₁, l₂, hs, hno, hm⟩ := findOne_eq_some_decomp store code m hfo
    have hdel : deleteFirst code store = (l₁ ++ l₂, 1) := by
      rw [hs]; exact deleteFirst_append l₁ l₂ m code hno hm
    have hc₁ : countMatch l₁ code = 0 := countMatch_eq_zero_of_no_match l₁ code hno
    have hcs : countMatch store code
        = countMatch l₁ code + (countMatch l₂ code + 1) := by
      rw [hs, countMatch_append, countMatch_cons_match m l₂ code hm]
    have hc₂ : countMatch l₂ code = 0 := by omega
    have hrest : countMatch (l₁ ++ l₂) code = 0 := by
      rw [countMatch_append]; omega
    have hfn : findOne (l₁ ++ l₂) code = none :=
      (countMatch_eq_zero_iff (l₁ ++ l₂) code).mp hrest
    constructor
    · simp [deleteHandler, hdel]
    · have hsnd : (deleteHandler store code).2 = l₁ ++ l₂ := by
        simp [deleteHandler, hdel]
      rw [hsnd]
      simp [statsHandler, hfn]

/-- Witness for the amended C3 on the one-document demo store. -/
theorem C3_witness :
    (deleteHandler demoStore "abc123").1
      = Response.jsonMessage 200 "URL eliminada correctamente." ∧
    (statsHandler (deleteHandler demoStore "abc123").2 "abc123").1
      = Response.jsonError 404 "Código corto no encontrado." :=
  C3_delete_then_stats demoStore "abc123" (by decide)

/-- C4: PUT with a non-empty url on a code whose first match is `m`
replaces only that document's url field: its clicks and createdAt are
untouched and every other document (the prefix `l₁` and suffix `l₂`) is
unchanged. -/
theorem C4_update_frame (store : List UrlMapping) (code url : String)
    (m : UrlMapping) (hurl : url ≠ "") (hfind : findOne store code = some m) :
    ∃ l₁ l₂, store = l₁ ++ m :: l₂ ∧
      (updateHandler store code (some url)).2
        = l₁ ++ { m with url := url } :: l₂ ∧
      (updateHandler store code (some url)).1
        = Response.jsonMessage 200 "URL actualizada correctamente." := by
  obtain ⟨l₁, l₂, hs, hno, hm⟩ := findOne_eq_some_decomp store code m hfind
  have hne : (url == "") = false := by simp [hurl]
  have hu : updateFirst code (fun x => { x with url := url }) store
      = (l₁ ++ { m with url := url } :: l₂, 1) := by
    rw [hs]; exact updateFirst_append l₁ l₂ m code _ hno hm
  exact ⟨l₁, l₂, hs, by simp [updateHandler, hne, hu], by simp [updateHandler, hne, hu]⟩

/-- Witness for C4 on the one-document demo store. -/
theorem C4_witness :
    ∃ l₁ l₂, demoStore = l₁ ++ (⟨"abc123", "https://example.com", 0, 5⟩ : UrlMapping) :: l₂ ∧
      (updateHandler demoStore "abc123" (some "https://new.example")).2
        = l₁ ++ (⟨"abc123", "https://new.example", 0, 5⟩ : UrlMapping) :: l₂ ∧
      (updateHandler demoStore "abc123" (some "https://new.example")).1
        = Response.jsonMessage 200 "URL actualizada correctamente." :=
  C4_update_frame demoStore "abc123" "https://new.example"
    ⟨"abc123", "https://example.com", 0, 5⟩ (by decide) (by decide)

/-- C5: stats on an unknown code is a 404 JSON error with the store
unchanged; on a known code the response carries exactly the matching
document's shortCode, url, clicks and createdAt, and the store is
unchanged. -/
theorem C5_stats_behavior (store : List UrlMapping) (code : String) :
    (findOne store code = none →
      (statsHandler store code).1
        = Response.jsonError 404 "Código corto no encontrado." ∧
      (statsHandler store code).2 = store) ∧
    (∀ m, findOne store code = some m →
      (statsHandler store code).1
        = Response.jsonStats 200 m.shortCode m.url m.clicks m.createdAt ∧
      (statsHandler store code).2 = store) := by
  constructor
  · intro h
    exact ⟨by simp [statsHandler, h], by simp [statsHandler, h]⟩
  · intro m h
    exact ⟨by simp [statsHandler, h], by simp [statsHandler, h]⟩

/-- Witness for C5 on the one-document demo store. -/
theorem C5_witness :
    (statsHandler demoStore "abc123").1
      = Response.jsonStats 200 "abc123" "https://example.com" 0 5 ∧
    (statsHandler demoStore "abc123").2 = demoStore := by
  have h := (C5_stats_behavior demoStore "abc123").2
    ⟨"abc123", "https://example.com", 0, 5⟩ (by decide)
  exact ⟨h.1, h.2⟩

/-- C6: POST answers the 400 JSON validation error exactly when the url
field is missing or empty, and in that case the store is unchanged. -/
theorem C6_create_validation (store : List UrlMapping) (body : Option String)
    (code : String) (now : Nat) :
    ((createHandler store body code now).1 = Response.jsonError 400 errUrlRequired
      ↔ (body = none ∨ body = some "")) ∧
    ((body = none ∨ body = some "") →
      (createHandler store body code now).2 = store) := by
  rcases body with _ | url
  · simp [createHandler]
  · by_cases hu : url = ""
    · subst hu
      simp [createHandler]
    · have hne : (url == "") = false := by simp [hu]
      simp [createHandler, hne, hu]

/-- Witness for C6: a missing url field yields the 400 error and leaves
the store unchanged. -/
theorem C6_witness :
    (createHandler demoStore none "zzzzzz" 9).1 = Response.jsonError 400 errUrlRequired ∧
    (createHandler demoStore none "zzzzzz" 9).2 = demoStore := by
  have h := C6_create_validation demoStore none "zzzzzz" 9
  exact ⟨h.1.mpr (Or.inl rfl), h.2 (Or.inl rfl)⟩

/-- C7: PUT with a non-empty url on a code with no matching record answers
the 404 JSON error and leaves the store unchanged. -/
theorem C7_update_unknown (store : List UrlMapping) (code url : String)
    (hurl : url ≠ "") (hfind : findOne store code = none) :
    (updateHandler store code (some url)).1
      = Response.jsonError 404 "Código corto no encontrado." ∧
    (updateHandler store code (some url)).2 = store := by
  have hne : (url == "") = false := by simp [hurl]
  have hu := updateFirst_of_find_none store code (fun x => { x with url := url }) hfind
  exact ⟨by simp [updateHandler, hne, hu], by simp [updateHandler, hne, hu]⟩

/-- Witness for C7 on the one-document demo store and an unknown code. -/
theorem C7_witness :
    (updateHandler demoStore "zzzzzz" (some "https://new.example")).1
      = Response.jsonError 404 "Código corto no encontrado." ∧
    (updateHandler demoStore "zzzzzz" (some "https://new.example")).2 = demoStore :=
  C7_update_unknown demoStore "zzzzzz" "https://new.example" (by decide) (by decide)

/-- C8: PUT with a missing or empty url answers 400 on every store, in
particular also when the short code has no matching record, because the
body check precedes the lookup; the store is unchanged. -/
theorem C8_update_body_check (store : List UrlMapping) (code : String)
    (body : Option String) (hbody : body = none ∨ body = some "") :
    (updateHandler store code body).1 = Response.jsonError 400 errUrlRequired ∧
    (updateHandler store code body).2 = store := by
  rcases hbody with h | h <;> subst h <;>
    exact ⟨by simp [updateHandler], by simp [updateHandler]⟩

/-- Witness for C8: a missing url on an unknown code of the empty store
yields 400, not 404. -/
theorem C8_witness :
    (updateHandler [] "zzzzzz" none).1 = Response.jsonError 400 errUrlRequired ∧
    (updateHandler [] "zzzzzz" none).2 = [] :=
  C8_update_body_check [] "zzzzzz" none (Or.inl rfl)

/-- C9: in every store reachable from the empty collection through the
five handlers, every document's clicks counter is non-negative: creation
writes 0, the redirect handler only adds 1, and no handler decreases it. -/
theorem C9_clicks_nonneg (store : List UrlMapping) (h : Reachable store) :
    ∀ m ∈ store, 0 ≤ m.clicks := by
  induction h with
  | init => intro m hm; simp at hm
  | create s body code now _ ih =>
    intro m hm
    rcases body with _ | url
    · simp only [createHandler] at hm
      exact ih m hm
    · by_cases hu : (url == "") = true
      · simp only [createHandler, if_pos hu] at hm
        exact ih m hm
      · simp only [createHandler, if_neg hu] at hm
        rcases List.mem_append.mp hm with h | h
        · exact ih m h
        · have hm' : m = ⟨code, url, 0, now⟩ := List.mem_singleton.mp h
          rw [hm']
  | redirect s code _ ih =>
    intro m hm
    rcases hfo : findOne s code with _ | m₀
    · simp only [redirectHandler, hfo] at hm
      exact ih m hm
    · simp only [redirectHandler, hfo] at hm
      rcases mem_updateFirst code _ s m hm with h | ⟨y, hy, hxy⟩
      · exact ih m h
      · have hy' := ih y hy
        rw [hxy]
        show 0 ≤ y.clicks + 1
        omega
  | update s code body _ ih =>
    intro m hm
    rcases body with _ | url
    · simp only [updateHandler] at hm
      exact ih m hm
    · by_cases hu : (url == "") = true
      · simp only [updateHandler, if_pos hu] at hm
        exact ih m hm
      · have hsnd : (updateHandler s code (some url)).2
            = (updateFirst code (fun x => { x with url := url }) s).1 := by
          simp only [updateHandler, if_neg hu]
          split <;> rfl
        rw [hsnd] at hm
        rcases mem_updateFirst code _ s m hm with h | ⟨y, hy, hxy⟩
        · exact ih m h
        · have hy' := ih y hy
          rw [hxy]
          show 0 ≤ y.clicks
          exact hy'
  | del s code _ ih =>
    intro m hm
    have hsnd : (deleteHandler s code).2 = (deleteFirst code s).1 := by
      simp only [deleteHandler]
      split <;> rfl
    rw [hsnd] at hm
    exact ih m (mem_deleteFirst code s m hm)
  | stats s code _ ih =>
    intro m hm
    rcases hfo : findOne s code with _ | m₀ <;>
      simp only [statsHandler, hfo] at hm <;> exact ih m hm

/-- Witness for C9: the document created into the empty store has a
non-negative clicks counter. -/
theorem C9_witness :
    0 ≤ (UrlMapping.mk "abc123" "https://example.com" 0 0).clicks := by
  have hr : Reachable (createHandler [] (some "https://example.com") "abc123" 0).2 :=
    Reachable.create [] (some "https://example.com") "abc123" 0 Reachable.init
  exact C9_clicks_nonneg _ hr ⟨"abc123", "https://example.com", 0, 0⟩ (by decide)

/-- C10: a DELETE removes at most one document: on a store with no match
it changes nothing, and with n ≥ 1 matches it leaves exactly n - 1
documents for that code while the documents with other short codes are
kept verbatim. -/
theorem C10_delete_at_most_one (store : List UrlMapping) (code : String) :
    (countMatch store code = 0 → (deleteHandler store code).2 = store) ∧
    (1 ≤ countMatch store code →
      countMatch (deleteHandler store code).2 code = countMatch store code - 1 ∧
      (deleteHandler store code).2.filter (fun m => !(m.shortCode == code))
        = store.filter (fun m => !(m.shortCode == code))) := by
  constructor
  · intro h
    have hfn := (countMatch_eq_zero_iff store code).mp h
    have hdel := deleteFirst_of_find_none store code hfn
    simp [deleteHandler, hdel]
  · intro h
    rcases hfo : findOne store code with _ | m
    · have := (countMatch_eq_zero_iff store code).mpr hfo
      omega
    · obtain ⟨l₁, l₂, hs, hno, hm⟩ := findOne_eq_some_decomp store code m hfo
      have hdel : deleteFirst code store = (l₁ ++ l₂, 1) := by
        rw [hs]; exact deleteFirst_append l₁ l₂ m code hno hm
      have hsnd : (deleteHandler store code).2 = l₁ ++ l₂ := by
        simp [deleteHandler, hdel]
      have hc₁ : countMatch l₁ code = 0 := countMatch_eq_zero_of_no_match l₁ code hno
      have hcs : countMatch store code
          = countMatch l₁ code + (countMatch l₂ code + 1) := by
        rw [hs, countMatch_append, countMatch_cons_match m l₂ code hm]
      constructor
      · rw [hsnd, countMatch_append]
        omega
      · rw [hsnd, hs, List.filter_append, List.filter_append, List.filter_cons]
        simp [hm]

/-- Witness for C10: deleting from the empty store changes nothing, and on
the duplicate store the match count drops by exactly one. -/
theorem C10_witness :
    (deleteHandler [] "abc123").2 = [] ∧
    countMatch (deleteHandler dupStore "abc123").2 "abc123"
      = countMatch dupStore "abc123" - 1 :=
  ⟨(C10_delete_at_most_one [] "abc123").1 (by decide),
   ((C10_delete_at_most_one dupStore "abc123").2 (by decide)).1⟩
